import Mathlib

/-!
Verification of the loudgain CLI driver (src/loudgain.c, version 0.2.1).

The program's `main` parses command-line options, scans the given files,
and runs a per-file loop that (1) applies the clip guard to the scanned
result, (2) runs the tag-mode switch, (3) prints either a tab-delimited
row or a human-readable block, and (4) possibly warns about clipping.

We embed this driver shallowly: C doubles become rationals (exact real
arithmetic; the one place IEEE semantics matters — `1.0 / 0.0 = +inf` in
the clip tests — is modelled explicitly by a zero test), the console and
the tag-writer collaborators become an event trace, and the scan library
(whose source is not part of this tree) is abstracted by handing the loop
the per-file results it would have produced, `none` standing for a NULL
return from `scan_get_track_result`.
-/

namespace Loudgain

/-- Codec identifier of a scanned file (`AV_CODEC_ID_*`).  The driver only
distinguishes MP3, FLAC and Vorbis; every other codec id is `other n`. -/
inductive CodecId : Type where
  | mp3 : CodecId
  | flac : CodecId
  | vorbis : CodecId
  | other : Nat → CodecId
deriving DecidableEq, Repr

/-- The fields of `scan_result` that `main` reads or writes
(file name, codec id, gains in dB, peaks as linear amplitudes,
loudness values used by the human-readable report). -/
structure ScanResult : Type where
  file : String
  codec_id : CodecId
  track_gain : ℚ
  track_peak : ℚ
  album_gain : ℚ
  album_peak : ℚ
  track_loudness : ℚ
  track_loudness_range : ℚ
  album_loudness : ℚ
  album_loudness_range : ℚ
deriving DecidableEq, Repr

/-- The C test `gain > 1.f / peak` under IEEE semantics: when `peak = 0`
the divisor is `+inf` and the comparison is false; otherwise it is exact
real division. -/
def gtInvPeak (gain peak : ℚ) : Bool :=
  if peak = 0 then false else decide (gain > 1 / peak)

/-- The C expression `FFMIN(gain, 1.0 / peak)` (`FFMIN(a,b)` is
`a > b ? b : a`): when `peak = 0` the second operand is `+inf` and the
result is `gain`; otherwise the smaller of `gain` and `1 / peak`. -/
def ffminInvPeak (gain peak : ℚ) : ℚ :=
  if peak = 0 then gain else if gain > 1 / peak then 1 / peak else gain

/-- Lines 157-181 of `main`: the will-clip detection
(`scan->track_gain > 1.f/scan->track_peak || scan->album_gain >
1.f/scan->album_peak`) followed, when `no_clip` is set, by clamping both
gains with `FFMIN(gain, 1.0/peak)` and clearing the flag.  Returns the
(possibly clamped) result together with the final `will_clip` flag. -/
def clipGuard (no_clip : Bool) (scan : ScanResult) : ScanResult × Bool :=
  let will_clip := gtInvPeak scan.track_gain scan.track_peak ||
                   gtInvPeak scan.album_gain scan.album_peak
  if will_clip && no_clip then
    ({ scan with
        track_gain := ffminInvPeak scan.track_gain scan.track_peak,
        album_gain := ffminInvPeak scan.album_gain scan.album_peak }, false)
  else
    (scan, will_clip)

/-- Observable actions of one run of `main`: console lines (status,
error, report rows/blocks, the clipping warning) and calls into the
scan and tag-writing collaborators. -/
inductive Ev : Type where
  | scanInitEv : Nat → Ev
  | scanFileEv : String → Nat → Ev
  | header : Ev
  | errMsg : String → Ev
  | tagClear : CodecId → String → Ev
  | tagWrite : CodecId → String → Ev
  | tabRow : String → ℚ → ℚ → Ev
  | tabAlbumRow : ℚ → ℚ → Ev
  | humanTrack : String → ℚ → ℚ → ℚ → ℚ → Ev
  | humanAlbum : ℚ → ℚ → ℚ → ℚ → Ev
  | warnClip : Ev
deriving DecidableEq, Repr

/-- The configuration `main` accumulates from its option loop
(lines 81-141). -/
structure Config : Type where
  mode : Char
  pre_gain : ℚ
  no_clip : Bool
  warn_clip : Bool
  do_album : Bool
  tab_output : Bool
  quiet : Bool
deriving DecidableEq, Repr

/-- Lines 183-247: the tag-mode switch.  Modes `c`, `s`, `r` do nothing;
`d` clears, `i` clears then writes, both only for MP3/FLAC/Vorbis and
reporting "File type not supported" otherwise; `a` and `v` report their
own unsupported-tags messages; any other mode is invalid. -/
def tagEvents (mode : Char) (scan : ScanResult) : List Ev :=
  match mode with
  | 'c' => []
  | 'd' =>
    match scan.codec_id with
    | .mp3 => [.tagClear .mp3 scan.file]
    | .flac => [.tagClear .flac scan.file]
    | .vorbis => [.tagClear .vorbis scan.file]
    | .other _ => [.errMsg "File type not supported"]
  | 'i' =>
    match scan.codec_id with
    | .mp3 => [.tagClear .mp3 scan.file, .tagWrite .mp3 scan.file]
    | .flac => [.tagClear .flac scan.file, .tagWrite .flac scan.file]
    | .vorbis => [.tagClear .vorbis scan.file, .tagWrite .vorbis scan.file]
    | .other _ => [.errMsg "File type not supported"]
  | 'a' => [.errMsg "APEv2 tags are not supported"]
  | 'v' => [.errMsg "Vorbis Comment tags are not supported"]
  | 's' => []
  | 'r' => []
  | _ => [.errMsg "Invalid tag mode"]

/-- Lines 249-281: the report for one file — a tab-delimited row
(file, track gain, track peak × 32768) or a human-readable block, plus,
on the last file when album mode is on, the album row or block. -/
def reportEvents (cfg : Config) (isLast : Bool) (scan : ScanResult) : List Ev :=
  if cfg.tab_output then
    .tabRow scan.file scan.track_gain (scan.track_peak * 32768) ::
      (if isLast && cfg.do_album then
        [.tabAlbumRow scan.album_gain (scan.album_peak * 32768)]
      else [])
  else
    .humanTrack scan.file scan.track_loudness scan.track_loudness_range
        scan.track_gain scan.track_peak ::
      (if isLast && cfg.do_album then
        [.humanAlbum scan.album_loudness scan.album_loudness_range
          scan.album_gain scan.album_peak]
      else [])

/-- One iteration of the loop at lines 156-287: a NULL result
(`none`) is skipped by `continue`; otherwise the clip guard runs first,
then the tag switch, then the report, then the clipping warning when
`warn_clip` is on and the flag survived. -/
def processOne (cfg : Config) (isLast : Bool) : Option ScanResult → List Ev
  | none => []
  | some scan0 =>
    let g := clipGuard cfg.no_clip scan0
    tagEvents cfg.mode g.1 ++ reportEvents cfg isLast g.1 ++
      (if cfg.warn_clip && g.2 then [.warnClip] else [])

/-- The whole loop at lines 156-287 over the per-file scan results, in
order; the `i == nb_files - 1` test of the C loop is the "last element"
position. -/
def sessionLoop (cfg : Config) : List (Option ScanResult) → List Ev
  | [] => []
  | [s] => processOne cfg true s
  | s :: s' :: rest => processOne cfg false s ++ sessionLoop cfg (s' :: rest)

/-- Value category returned by C `strtod`: a finite number (exact, as a
rational), a signed infinity, or NaN.  `isfinite` holds only of `fin`. -/
inductive FloatVal : Type where
  | fin : ℚ → FloatVal
  | infpos : FloatVal
  | infneg : FloatVal
  | nan : FloatVal
deriving DecidableEq, Repr

/-- `isfinite` from `<math.h>` on a `strtod` result. -/
def FloatVal.isfinite : FloatVal → Bool
  | .fin _ => true
  | _ => false

/-- The six characters `isspace` accepts in the C locale. -/
def isSpaceC (c : Char) : Bool :=
  c = ' ' || c = '\t' || c = '\n' || c = '\r' || c = '\x0b' || c = '\x0c'

/-- ASCII decimal digit test. -/
def isDigitC (c : Char) : Bool := '0' ≤ c && c ≤ '9'

/-- Count and drop the leading whitespace `strtod` skips. -/
def dropSpacesCount : List Char → Nat × List Char
  | [] => (0, [])
  | c :: cs =>
    if isSpaceC c then
      let r := dropSpacesCount cs
      (r.1 + 1, r.2)
    else (0, c :: cs)

/-- An optional sign character: (negative?, chars consumed, rest). -/
def parseSign : List Char → Bool × Nat × List Char
  | '-' :: cs => (true, 1, cs)
  | '+' :: cs => (false, 1, cs)
  | cs => (false, 0, cs)

/-- The longest run of leading decimal digits, and the rest. -/
def takeDigits : List Char → List Char × List Char
  | [] => ([], [])
  | c :: cs =>
    if isDigitC c then
      let r := takeDigits cs
      (c :: r.1, r.2)
    else ([], c :: cs)

/-- Numeric value of a digit string. -/
def natOfDigits (ds : List Char) : Nat :=
  ds.foldl (fun a c => 10 * a + (c.toNat - '0'.toNat)) 0

/-- Case-insensitive literal match; `some rest` on success. -/
def matchCI : List Char → List Char → Option (List Char)
  | [], cs => some cs
  | _ :: _, [] => none
  | p :: ps, c :: cs => if c.toLower = p then matchCI ps cs else none

/-- An exponent part `e[+-]digits`; consumed only when at least one
digit follows, exactly as `strtod` backtracks otherwise.  Returns the
exponent and the characters consumed. -/
def parseExp : List Char → Int × Nat
  | [] => (0, 0)
  | c :: cs =>
    if c = 'e' || c = 'E' then
      let s := parseSign cs
      let d := takeDigits s.2.2
      if d.1 = [] then (0, 0)
      else
        ((if s.1 then -(natOfDigits d.1 : Int) else (natOfDigits d.1 : Int)),
         1 + s.2.1 + d.1.length)
    else (0, 0)

/-- The decimal significand and exponent after the sign:
`digits [. digits] [exp]` or `. digits [exp]`.  Returns the (unsigned)
value and the characters consumed, or `none` when no digit is found
(hexadecimal floats and locale decimal points are not modelled). -/
def parseDec (cs : List Char) : Option (ℚ × Nat) :=
  let ip := takeDigits cs
  match ip.2 with
  | '.' :: cs2 =>
    let fp := takeDigits cs2
    if ip.1 = [] ∧ fp.1 = [] then none
    else
      let e := parseExp fp.2
      some (((natOfDigits ip.1 : ℚ) + (natOfDigits fp.1 : ℚ) / (10 : ℚ) ^ fp.1.length)
              * (10 : ℚ) ^ e.1,
            ip.1.length + 1 + fp.1.length + e.2)
  | _ =>
    if ip.1 = [] then none
    else
      let e := parseExp ip.2
      some ((natOfDigits ip.1 : ℚ) * (10 : ℚ) ^ e.1, ip.1.length + e.2)

/-- C `strtod(s, &rest)`: the parsed value and the number of characters
consumed (`rest - s`); a failed conversion returns `0.0` with zero
characters consumed.  Recognizes optional whitespace, a sign, a decimal
significand with optional exponent, and the case-insensitive literals
`inf`/`infinity`/`nan`. -/
def strtod (s : String) : FloatVal × Nat :=
  let w := dropSpacesCount s.toList
  let sg := parseSign w.2
  match matchCI ['i', 'n', 'f', 'i', 'n', 'i', 't', 'y'] sg.2.2 with
  | some _ => ((if sg.1 then .infneg else .infpos), w.1 + sg.2.1 + 8)
  | none =>
    match matchCI ['i', 'n', 'f'] sg.2.2 with
    | some _ => ((if sg.1 then .infneg else .infpos), w.1 + sg.2.1 + 3)
    | none =>
      match matchCI ['n', 'a', 'n'] sg.2.2 with
      | some _ => (.nan, w.1 + sg.2.1 + 3)
      | none =>
        match parseDec sg.2.2 with
        | some (q, n) => (.fin (if sg.1 then -q else q), w.1 + sg.2.1 + n)
        | none => (.fin 0, 0)

/-- Lines 109-118 of `main`: the `-d` / `--db-gain` handler.  `strtod`
parses `optarg`; the value is rejected (`fail_printf`) when no
characters were consumed (`rest == optarg`) or the value is not finite
(`!isfinite(pre_gain)`); otherwise it becomes the pre-gain. -/
def parseDbGain (optarg : String) : Option ℚ :=
  match strtod optarg with
  | (_, 0) => none
  | (.fin q, _) => some q
  | (_, _) => none

/-- `true` exactly when the `-d` handler calls `fail_printf`. -/
def dbGainRejected (s : String) : Bool := (parseDbGain s).isNone

/-- The condition lines 113-115 test, expressed on the `strtod` output:
nothing consumed, or a non-finite value. -/
def strtodFailed (s : String) : Bool :=
  (strtod s).2 == 0 || !(strtod s).1.isfinite

/-- The command-line options `getopt_long` can hand to the option loop
(lines 91-141), in order; `dbGain` and `tagMode` carry their `optarg`. -/
inductive Opt : Type where
  | track : Opt
  | album : Opt
  | clip : Opt
  | noclip : Opt
  | dbGain : String → Opt
  | output : Opt
  | quiet : Opt
  | tagMode : String → Opt
  | help : Opt
  | version : Opt
deriving DecidableEq, Repr

/-- Outcome of the option loop: `errorExit` models `fail_printf`
(modelled from the spec: a fatal error that aborts before any
scanning), `helpExit` the `return 0` after `help()`/`version()`, and
`cfg` a completed configuration. -/
inductive ArgResult : Type where
  | errorExit : ArgResult
  | helpExit : ArgResult
  | cfg : Config → ArgResult
deriving DecidableEq, Repr

/-- Lines 91-141: the option loop, threading the configuration through
each recognized option. `-r` is a no-op, `-s` takes `optarg[0]` (the NUL
terminator when `optarg` is empty), `-h`/`-?`/`-V` return immediately,
and a bad `-d` value fails fatally. -/
def processArgs : List Opt → Config → ArgResult
  | [], c => .cfg c
  | o :: rest, c =>
    match o with
    | .track => processArgs rest c
    | .album => processArgs rest { c with do_album := true }
    | .clip => processArgs rest { c with warn_clip := false }
    | .noclip => processArgs rest { c with no_clip := true }
    | .dbGain s =>
      match parseDbGain s with
      | none => .errorExit
      | some q => processArgs rest { c with pre_gain := q }
    | .output => processArgs rest { c with tab_output := true }
    | .quiet => processArgs rest { c with quiet := true }
    | .tagMode s => processArgs rest { c with mode := s.toList.headD '\x00' }
    | .help => .helpExit
    | .version => .helpExit

/-- The variable initializations at lines 81-89: mode `s`, zero
pre-gain, warn on clipping, no album, human-readable output. -/
def initConfig : Config := ⟨'s', 0, false, true, false, false, false⟩

/-- Outcome of a whole run of `main`: `argFailure` is the fatal
`fail_printf` during option parsing (modelled from the spec: a nonzero
exit before `scan_init`/`scan_file` run), `earlyExit` the exit 0 of
`-h`/`-V`, and `run` a full session with its event trace and the exit
status of line 291. -/
inductive MainOut : Type where
  | argFailure : MainOut
  | earlyExit : MainOut
  | run : List Ev → Nat → MainOut
deriving DecidableEq, Repr

/-- The events of a run; an aborted run produced none. -/
def MainOut.events : MainOut → List Ev
  | .run evs _ => evs
  | _ => []

/-- Lines 78-292 of `main`: parse the options; on success call
`scan_init` with the file count, `scan_file` on each file in order,
print the tab header when requested, run the session loop, and return
0.  The per-file scan results (what `scan_get_track_result` /
`scan_set_album_result` would later yield, `none` for NULL) are a
parameter, the scan library being outside this tree. -/
def runMain (opts : List Opt) (files : List String)
    (scans : List (Option ScanResult)) : MainOut :=
  match processArgs opts initConfig with
  | .errorExit => .argFailure
  | .helpExit => .earlyExit
  | .cfg c =>
    .run (.scanInitEv files.length ::
          ((List.range files.length).zip files).map (fun p => .scanFileEv p.2 p.1) ++
          (if c.tab_output then [.header] else []) ++
          sessionLoop c scans) 0

/-- Classifier for per-track tab rows in an event trace. -/
def isTabTrackRow : Ev → Bool
  | .tabRow _ _ _ => true
  | _ => false

/-- Classifier for the album tab row in an event trace. -/
def isTabAlbumRow : Ev → Bool
  | .tabAlbumRow _ _ => true
  | _ => false

/-- Classifier for per-track human-readable blocks in an event trace. -/
def isHumanTrackBlock : Ev → Bool
  | .humanTrack _ _ _ _ _ => true
  | _ => false

/-- Classifier for the album human-readable block in an event trace. -/
def isHumanAlbumBlock : Ev → Bool
  | .humanAlbum _ _ _ _ => true
  | _ => false

/-! ## Helper lemmas -/

/-- Clamping never raises the test above its bound: after
`FFMIN(gain, 1.0/peak)` the C test `gain > 1.f/peak` is false. -/
theorem gtInvPeak_ffminInvPeak (g p : ℚ) : gtInvPeak (ffminInvPeak g p) p = false := by
  unfold gtInvPeak ffminInvPeak
  by_cases hp : p = 0
  · simp [hp]
  · rw [if_neg hp, if_neg hp]
    simp only [decide_eq_false_iff_not, not_lt]
    split
    · exact le_refl _
    · next h => exact le_of_not_lt h

/-- If the test was already false, the clamp is the identity. -/
theorem ffminInvPeak_of_not_gt (g p : ℚ) (h : gtInvPeak g p = false) :
    ffminInvPeak g p = g := by
  unfold gtInvPeak at h
  unfold ffminInvPeak
  by_cases hp : p = 0
  · simp [hp]
  · simp [hp] at h
    simp [hp, h]

/-- With clip-avoidance enabled the guard always clears the flag. -/
theorem clipGuard_true_flag (s : ScanResult) : (clipGuard true s).2 = false := by
  unfold clipGuard
  by_cases h : (gtInvPeak s.track_gain s.track_peak ||
      gtInvPeak s.album_gain s.album_peak) = true
  · simp [h]
  · simp only [Bool.not_eq_true] at h
    simp [h]

/-- The guard never touches the file, codec, peaks or loudness fields. -/
theorem clipGuard_preserves (nc : Bool) (s : ScanResult) :
    (clipGuard nc s).1.file = s.file ∧
    (clipGuard nc s).1.codec_id = s.codec_id ∧
    (clipGuard nc s).1.track_peak = s.track_peak ∧
    (clipGuard nc s).1.album_peak = s.album_peak ∧
    (clipGuard nc s).1.track_loudness = s.track_loudness ∧
    (clipGuard nc s).1.track_loudness_range = s.track_loudness_range ∧
    (clipGuard nc s).1.album_loudness = s.album_loudness ∧
    (clipGuard nc s).1.album_loudness_range = s.album_loudness_range := by
  unfold clipGuard
  by_cases h : ((gtInvPeak s.track_gain s.track_peak ||
      gtInvPeak s.album_gain s.album_peak) && nc) = true <;> simp [h]

/-- The resulting track gain depends only on the track pair: it is the
clamped gain when the guard fires on the track test, the original gain
otherwise. -/
theorem clipGuard_track_gain (nc : Bool) (s : ScanResult) :
    (clipGuard nc s).1.track_gain =
      if nc && gtInvPeak s.track_gain s.track_peak then
        ffminInvPeak s.track_gain s.track_peak
      else s.track_gain := by
  unfold clipGuard
  by_cases ht : gtInvPeak s.track_gain s.track_peak = true
  · by_cases hnc : nc = true
    · simp [ht, hnc]
    · simp only [Bool.not_eq_true] at hnc
      simp [ht, hnc]
  · simp only [Bool.not_eq_true] at ht
    by_cases ha : gtInvPeak s.album_gain s.album_peak = true
    · by_cases hnc : nc = true
      · simp [ht, ha, hnc, ffminInvPeak_of_not_gt _ _ ht]
      · simp only [Bool.not_eq_true] at hnc
        simp [ht, ha, hnc]
    · simp only [Bool.not_eq_true] at ha
      simp [ht, ha]

/-- Companion to `clipGuard_track_gain` for the album pair. -/
theorem clipGuard_album_gain (nc : Bool) (s : ScanResult) :
    (clipGuard nc s).1.album_gain =
      if nc && gtInvPeak s.album_gain s.album_peak then
        ffminInvPeak s.album_gain s.album_peak
      else s.album_gain := by
  unfold clipGuard
  by_cases ha : gtInvPeak s.album_gain s.album_peak = true
  · by_cases hnc : nc = true
    · simp [ha, hnc]
    · simp only [Bool.not_eq_true] at hnc
      simp [ha, hnc]
  · simp only [Bool.not_eq_true] at ha
    by_cases ht : gtInvPeak s.track_gain s.track_peak = true
    · by_cases hnc : nc = true
      · simp [ht, ha, hnc, ffminInvPeak_of_not_gt _ _ ha]
      · simp only [Bool.not_eq_true] at hnc
        simp [ht, ha, hnc]
    · simp [ht, ha]

/-- Unfolding the loop one step when more files follow. -/
theorem sessionLoop_cons (cfg : Config) (a : Option ScanResult)
    (l : List (Option ScanResult)) (h : l ≠ []) :
    sessionLoop cfg (a :: l) = processOne cfg false a ++ sessionLoop cfg l := by
  match l with
  | [] => exact absurd rfl h
  | b :: bs => rfl

/-- The loop is the concatenation of per-file segments: every file
before the last runs with `isLast = false`, the last with
`isLast = true`. -/
theorem sessionLoop_append_last (cfg : Config) (l : List (Option ScanResult))
    (x : Option ScanResult) :
    sessionLoop cfg (l ++ [x]) =
      (l.map (processOne cfg false)).flatten ++ processOne cfg true x := by
  induction l with
  | nil => simp [sessionLoop]
  | cons a l ih =>
    rw [List.cons_append, sessionLoop_cons cfg a (l ++ [x]) (by simp)]
    simp [ih]

/-- A failed scan in a non-final position contributes nothing and the
loop behaves as if the file were absent. -/
theorem sessionLoop_skip_none (cfg : Config) (pre : List (Option ScanResult))
    (p : Option ScanResult) (ps : List (Option ScanResult)) :
    sessionLoop cfg (pre ++ none :: p :: ps) = sessionLoop cfg (pre ++ p :: ps) := by
  induction pre with
  | nil =>
    rw [List.nil_append, List.nil_append,
      sessionLoop_cons cfg none (p :: ps) (by simp)]
    simp [processOne]
  | cons a pre ih =>
    rw [List.cons_append, List.cons_append,
      sessionLoop_cons cfg a (pre ++ none :: p :: ps) (by simp),
      sessionLoop_cons cfg a (pre ++ p :: ps) (by simp), ih]

/-- The tag-mode switch emits no report rows or blocks: only error
messages and tag-writer calls. -/
theorem tagEvents_filter_rows (m : Char) (s : ScanResult) :
    (tagEvents m s).filter isTabTrackRow = [] ∧
    (tagEvents m s).filter isTabAlbumRow = [] ∧
    (tagEvents m s).filter isHumanTrackBlock = [] ∧
    (tagEvents m s).filter isHumanAlbumBlock = [] := by
  refine ⟨?_, ?_, ?_, ?_⟩ <;>
    · unfold tagEvents
      split <;> (try split) <;>
        simp [isTabTrackRow, isTabAlbumRow, isHumanTrackBlock, isHumanAlbumBlock]

/-- Under tag modes `d` and `i` a codec outside MP3/FLAC/Vorbis yields
exactly the "File type not supported" error message. -/
theorem tagEvents_unsupported (s : ScanResult) (n : Nat) (h : s.codec_id = .other n) :
    tagEvents 'd' s = [.errMsg "File type not supported"] ∧
    tagEvents 'i' s = [.errMsg "File type not supported"] := by
  constructor <;> simp [tagEvents, h]

/-! ## Claim theorems -/

/-- C2: Clip-guard idempotence — running the will-clip detection and
(when enabled) the clip-avoidance clamp a second time on the result of
the first run reproduces exactly the first run's gains and will-clip
flag. -/
theorem clipGuard_idempotent (nc : Bool) (s : ScanResult) :
    clipGuard nc (clipGuard nc s).1 = clipGuard nc s := by
  by_cases hnc : nc = true
  · subst hnc
    by_cases h : (gtInvPeak s.track_gain s.track_peak ||
        gtInvPeak s.album_gain s.album_peak) = true
    · have h1 : clipGuard true s =
          ({ s with track_gain := ffminInvPeak s.track_gain s.track_peak,
                    album_gain := ffminInvPeak s.album_gain s.album_peak }, false) := by
        unfold clipGuard
        simp [h]
      rw [h1]
      unfold clipGuard
      simp [gtInvPeak_ffminInvPeak]
    · simp only [Bool.not_eq_true] at h
      have h1 : clipGuard true s = (s, false) := by
        unfold clipGuard
        simp [h]
      rw [h1]
      exact h1
  · simp only [Bool.not_eq_true] at hnc
    subst hnc
    have h1 : ∀ u : ScanResult, clipGuard false u =
        (u, gtInvPeak u.track_gain u.track_peak || gtInvPeak u.album_gain u.album_peak) := by
      intro u
      unfold clipGuard
      simp
    rw [h1, h1]

/-- C1: evaluation of the clip guard at the failing input
`track_gain = 1 dB, track_peak = 1` (album pair identical), with
clip-avoidance enabled.  The predicted peak `peak · 10^(gain/20) =
10^(1/20)` exceeds 1.0, yet the guard leaves the result untouched
(its test `gain > 1/peak` compares a dB value against a linear one, so
`1 > 1` fails): the returned gain is not `-20·log10(peak) = 0` and the
predicted peak of the returned gain still exceeds full scale. -/
theorem clip_guard_misses_predicted_clipping :
    clipGuard true ⟨"t.mp3", CodecId.mp3, 1, 1, 1, 1, 0, 0, 0, 0⟩
      = (⟨"t.mp3", CodecId.mp3, 1, 1, 1, 1, 0, 0, 0, 0⟩, false) ∧
    ((1 : ℚ) : ℝ) * (10 : ℝ) ^ ((((⟨"t.mp3", CodecId.mp3, 1, 1, 1, 1, 0, 0, 0, 0⟩ :
        ScanResult).track_gain : ℚ) : ℝ) / 20) > 1 ∧
    (((clipGuard true ⟨"t.mp3", CodecId.mp3, 1, 1, 1, 1, 0, 0, 0, 0⟩).1.track_gain : ℚ) : ℝ)
      ≠ -20 * Real.logb 10 (((⟨"t.mp3", CodecId.mp3, 1, 1, 1, 1, 0, 0, 0, 0⟩ :
        ScanResult).track_peak : ℚ) : ℝ) ∧
    (((⟨"t.mp3", CodecId.mp3, 1, 1, 1, 1, 0, 0, 0, 0⟩ : ScanResult).track_peak : ℚ) : ℝ) *
        (10 : ℝ) ^ ((((clipGuard true ⟨"t.mp3", CodecId.mp3, 1, 1, 1, 1, 0, 0, 0, 0⟩).1.track_gain :
          ℚ) : ℝ) / 20) ≠ 1 := by
  have hg : clipGuard true ⟨"t.mp3", CodecId.mp3, 1, 1, 1, 1, 0, 0, 0, 0⟩
      = (⟨"t.mp3", CodecId.mp3, 1, 1, 1, 1, 0, 0, 0, 0⟩, false) := by
    simp +decide [clipGuard, gtInvPeak]
  have hpow : (1 : ℝ) < (10 : ℝ) ^ ((1 : ℝ) / 20) :=
    Real.one_lt_rpow (by norm_num) (by norm_num)
  refine ⟨hg, ?_, ?_, ?_⟩
  · push_cast
    simpa using hpow
  · rw [hg]
    push_cast
    simp [Real.logb_one]
  · rw [hg]
    push_cast
    simpa using ne_of_gt hpow

/-- C3 counterexample: two results with identical track gain and track
peak but different album gains get different will-clip flags, because
the code keeps one flag for both scopes (`will_clip` is the disjunction
of the track and the album test). -/
theorem clipGuard_flag_depends_on_album :
    (⟨"t.mp3", CodecId.mp3, 0, 1, 5, 1, 0, 0, 0, 0⟩ : ScanResult).track_gain =
      (⟨"t.mp3", CodecId.mp3, 0, 1, 0, 1, 0, 0, 0, 0⟩ : ScanResult).track_gain ∧
    (⟨"t.mp3", CodecId.mp3, 0, 1, 5, 1, 0, 0, 0, 0⟩ : ScanResult).track_peak =
      (⟨"t.mp3", CodecId.mp3, 0, 1, 0, 1, 0, 0, 0, 0⟩ : ScanResult).track_peak ∧
    (clipGuard false ⟨"t.mp3", CodecId.mp3, 0, 1, 5, 1, 0, 0, 0, 0⟩).2 = true ∧
    (clipGuard false ⟨"t.mp3", CodecId.mp3, 0, 1, 0, 1, 0, 0, 0, 0⟩).2 = false := by
  refine ⟨rfl, rfl, ?_, ?_⟩ <;> simp +decide [clipGuard, gtInvPeak]

/-- C3 (amended): the guard's effect on the track gain depends only on
the track's own gain and peak — two results agreeing on those two
fields receive the same resulting track gain, whatever their album
fields; and with clip-avoidance enabled the final will-clip flag is
scope-independent too, being always false. -/
theorem clipGuard_track_gain_scope_independent (nc : Bool) (f₁ f₂ : String)
    (c₁ c₂ : CodecId) (tg tp ag₁ ap₁ ag₂ ap₂ l₁ l₂ l₃ l₄ m₁ m₂ m₃ m₄ : ℚ) :
    (clipGuard nc ⟨f₁, c₁, tg, tp, ag₁, ap₁, l₁, l₂, l₃, l₄⟩).1.track_gain =
      (clipGuard nc ⟨f₂, c₂, tg, tp, ag₂, ap₂, m₁, m₂, m₃, m₄⟩).1.track_gain ∧
    ∀ s : ScanResult, (clipGuard true s).2 = false := by
  constructor
  · rw [clipGuard_track_gain, clipGuard_track_gain]
  · exact clipGuard_true_flag

/-- C10 counterexample: a result with `track_peak = 0` is still flagged
as clipping when its album pair trips the shared test. -/
theorem zero_peak_still_flagged :
    (⟨"t.mp3", CodecId.mp3, 0, 0, 5, 1, 0, 0, 0, 0⟩ : ScanResult).track_peak = 0 ∧
    (clipGuard false ⟨"t.mp3", CodecId.mp3, 0, 0, 5, 1, 0, 0, 0, 0⟩).2 = true := by
  refine ⟨rfl, ?_⟩
  simp +decide [clipGuard, gtInvPeak]

/-- C10 (amended): the zero-peak pair itself is safe — the C test
`gain > 1/0 = +inf` is false for every gain, `FFMIN(gain, +inf)` leaves
the gain unchanged, the guard returns the track gain untouched whatever
the album fields, and when both peaks are zero the result is never
flagged. -/
theorem zero_peak_guard_safe (nc : Bool) (f : String) (c : CodecId)
    (g ag ap l₁ l₂ l₃ l₄ : ℚ) :
    gtInvPeak g 0 = false ∧
    ffminInvPeak g 0 = g ∧
    (clipGuard nc ⟨f, c, g, 0, ag, ap, l₁, l₂, l₃, l₄⟩).1.track_gain = g ∧
    (clipGuard nc ⟨f, c, g, 0, ag, 0, l₁, l₂, l₃, l₄⟩).2 = false := by
  refine ⟨by simp [gtInvPeak], by simp [ffminInvPeak], ?_, ?_⟩
  · rw [clipGuard_track_gain]
    simp [gtInvPeak]
  · unfold clipGuard
    simp [gtInvPeak]

/-- Helper for C4: a malformed `-d` value reaching the option loop
turns the whole parse into `errorExit`, whatever configuration has been
accumulated, provided no earlier `-h`/`-V` short-circuits the loop. -/
theorem processArgs_dbGain_fail (pre post : List Opt) (s : String)
    (hs : parseDbGain s = none)
    (hpre : ∀ o ∈ pre, o ≠ Opt.help ∧ o ≠ Opt.version) :
    ∀ c : Config, processArgs (pre ++ Opt.dbGain s :: post) c = .errorExit := by
  induction pre with
  | nil =>
    intro c
    simp [processArgs, hs]
  | cons o pre ih =>
    intro c
    have hpre' : ∀ o' ∈ pre, o' ≠ Opt.help ∧ o' ≠ Opt.version :=
      fun o' h' => hpre o' (List.mem_cons_of_mem _ h')
    have ho := hpre o (List.mem_cons_self _ _)
    cases o with
    | track => simpa only [List.cons_append, processArgs] using ih hpre' c
    | album => simpa only [List.cons_append, processArgs] using ih hpre' _
    | clip => simpa only [List.cons_append, processArgs] using ih hpre' _
    | noclip => simpa only [List.cons_append, processArgs] using ih hpre' _
    | dbGain s' =>
      rw [List.cons_append]
      show processArgs (Opt.dbGain s' :: (pre ++ Opt.dbGain s :: post)) c = .errorExit
      cases h' : parseDbGain s' with
      | none => simp [processArgs, h']
      | some v => simp only [processArgs, h']; exact ih hpre' _
    | output => simpa only [List.cons_append, processArgs] using ih hpre' _
    | quiet => simpa only [List.cons_append, processArgs] using ih hpre' _
    | tagMode s' => simpa only [List.cons_append, processArgs] using ih hpre' _
    | help => exact absurd rfl ho.1
    | version => exact absurd rfl ho.2

/-- C4: when a `-d`/`--db-gain` value is malformed (`strtod` consumed
nothing or produced a non-finite value) and the option is actually
processed (no earlier `-h`/`-V` returns first), the run aborts with the
fatal argument error and its event trace is empty — `scan_init` and
`scan_file` are never reached. -/
theorem invalid_db_gain_aborts_before_scanning (pre post : List Opt) (s : String)
    (files : List String) (scans : List (Option ScanResult))
    (hs : parseDbGain s = none)
    (hpre : ∀ o ∈ pre, o ≠ Opt.help ∧ o ≠ Opt.version) :
    runMain (pre ++ Opt.dbGain s :: post) files scans = .argFailure ∧
    (runMain (pre ++ Opt.dbGain s :: post) files scans).events = [] := by
  have h := processArgs_dbGain_fail pre post s hs hpre initConfig
  have h2 : runMain (pre ++ Opt.dbGain s :: post) files scans = .argFailure := by
    unfold runMain
    rw [h]
  exact ⟨h2, by rw [h2]; rfl⟩

/-- Witness for C4 at the concrete invocation `loudgain -d abc a.mp3`. -/
theorem invalid_db_gain_aborts_before_scanning_witness :
    parseDbGain "abc" = none ∧
    runMain [Opt.dbGain "abc"] ["a.mp3"] [none] = .argFailure := by
  have hs : parseDbGain "abc" = none := by
    simp +decide [parseDbGain, strtod, dropSpacesCount, parseSign, matchCI,
      parseDec, takeDigits, isSpaceC, isDigitC]
  exact ⟨hs, (invalid_db_gain_aborts_before_scanning [] [] "abc" ["a.mp3"] [none] hs
    (by simp)).1⟩

/-- C9: the `-d` handler rejects its argument exactly when `strtod`
consumed no characters or returned a non-finite value; in particular a
numeric prefix followed by junk is accepted with the prefix's value
(`"1.5abc"` yields 1.5 after consuming 3 characters), while the empty
string and the non-finite literals `inf`/`nan` are rejected. -/
theorem db_gain_lenient_parsing :
    (∀ s : String, dbGainRejected s = strtodFailed s) ∧
    parseDbGain "1.5abc" = some (3 / 2) ∧
    (strtod "1.5abc").2 = 3 ∧
    parseDbGain "" = none ∧
    parseDbGain "inf" = none ∧
    parseDbGain "nan" = none := by
  refine ⟨?_, ?_, ?_, ?_, ?_, ?_⟩
  · intro s
    cases htv : strtod s with
    | mk v n =>
      cases v <;> cases n <;>
        simp [dbGainRejected, strtodFailed, parseDbGain, htv, FloatVal.isfinite]
  · simp +decide [parseDbGain, strtod, dropSpacesCount, parseSign, matchCI,
      parseDec, parseExp, takeDigits, natOfDigits, isSpaceC, isDigitC]
    norm_num
  · simp +decide [strtod, dropSpacesCount, parseSign, matchCI,
      parseDec, parseExp, takeDigits, natOfDigits, isSpaceC, isDigitC]
  · simp +decide [parseDbGain, strtod, dropSpacesCount, parseSign, matchCI,
      parseDec, takeDigits, isSpaceC, isDigitC]
  · simp +decide [parseDbGain, strtod, dropSpacesCount, parseSign, matchCI,
      parseDec, takeDigits, isSpaceC, isDigitC]
  · simp +decide [parseDbGain, strtod, dropSpacesCount, parseSign, matchCI,
      parseDec, takeDigits, isSpaceC, isDigitC]

/-- C5: per-file failure isolation — a NULL scan result contributes no
events (its reporting and tagging are skipped) and the loop behaves on
the rest of the batch exactly as if the failed file were absent; and
the process exit status is 0 whenever the option parse succeeded, the
only other outcomes being the fatal argument failure and the `-h`/`-V`
early exit. -/
theorem failed_scan_isolated_exit_zero (cfg : Config) (pre : List (Option ScanResult))
    (p : Option ScanResult) (ps : List (Option ScanResult))
    (opts : List Opt) (files : List String) (scans : List (Option ScanResult)) :
    sessionLoop cfg (pre ++ none :: p :: ps) = sessionLoop cfg (pre ++ p :: ps) ∧
    processOne cfg false none = [] ∧ processOne cfg true none = [] ∧
    (runMain opts files scans = .argFailure ∨ runMain opts files scans = .earlyExit ∨
      ∃ evs, runMain opts files scans = .run evs 0) := by
  refine ⟨sessionLoop_skip_none cfg pre p ps, rfl, rfl, ?_⟩
  unfold runMain
  cases processArgs opts initConfig with
  | errorExit => exact Or.inl rfl
  | helpExit => exact Or.inr (Or.inl rfl)
  | cfg c => exact Or.inr (Or.inr ⟨_, rfl⟩)

/-- C6: a file whose codec is not MP3/FLAC/Vorbis, under tag mode `d`
(and likewise `i`), produces the "File type not supported" error
message followed by that file's full report (and possible clip
warning), and the loop then continues with the remaining files — the
session is never aborted. -/
theorem unsupported_format_nonfatal (n : Nat) (pg : ℚ) (nc wc da tb q b : Bool)
    (f : String) (tg tp ag ap l₁ l₂ l₃ l₄ : ℚ) (p : Option ScanResult)
    (ps : List (Option ScanResult)) :
    tagEvents 'd' ⟨f, .other n, tg, tp, ag, ap, l₁, l₂, l₃, l₄⟩ =
      [.errMsg "File type not supported"] ∧
    tagEvents 'i' ⟨f, .other n, tg, tp, ag, ap, l₁, l₂, l₃, l₄⟩ =
      [.errMsg "File type not supported"] ∧
    processOne ⟨'d', pg, nc, wc, da, tb, q⟩ b
        (some ⟨f, .other n, tg, tp, ag, ap, l₁, l₂, l₃, l₄⟩) =
      .errMsg "File type not supported" ::
        (reportEvents ⟨'d', pg, nc, wc, da, tb, q⟩ b
            (clipGuard nc ⟨f, .other n, tg, tp, ag, ap, l₁, l₂, l₃, l₄⟩).1 ++
          (if wc && (clipGuard nc ⟨f, .other n, tg, tp, ag, ap, l₁, l₂, l₃, l₄⟩).2 then
            [.warnClip] else [])) ∧
    sessionLoop ⟨'d', pg, nc, wc, da, tb, q⟩
        (some ⟨f, .other n, tg, tp, ag, ap, l₁, l₂, l₃, l₄⟩ :: p :: ps) =
      processOne ⟨'d', pg, nc, wc, da, tb, q⟩ false
          (some ⟨f, .other n, tg, tp, ag, ap, l₁, l₂, l₃, l₄⟩) ++
        sessionLoop ⟨'d', pg, nc, wc, da, tb, q⟩ (p :: ps) := by
  have hc : (clipGuard nc ⟨f, .other n, tg, tp, ag, ap, l₁, l₂, l₃, l₄⟩).1.codec_id =
      .other n :=
    (clipGuard_preserves nc _).2.1
  have ht := tagEvents_unsupported _ n hc
  refine ⟨(tagEvents_unsupported _ n rfl).1, (tagEvents_unsupported _ n rfl).2, ?_, ?_⟩
  · simp [processOne, ht.1]
  · exact sessionLoop_cons _ _ _ (by simp)

/-- C7: the values a file's report carries are exactly the post-clamp
ones — in either output mode the single track row (or block) printed
for a file holds the clip-guard output's gains and peaks, and the album
row (or block), present exactly on the last file in album mode, holds
the post-clamp album values; no event of the file carries any other
gain or peak. -/
theorem reported_values_are_post_clamp (m : Char) (pg : ℚ) (nc wc da q b : Bool)
    (s0 : ScanResult) :
    ((processOne ⟨m, pg, nc, wc, da, true, q⟩ b (some s0)).filter isTabTrackRow =
      [.tabRow (clipGuard nc s0).1.file (clipGuard nc s0).1.track_gain
        ((clipGuard nc s0).1.track_peak * 32768)]) ∧
    ((processOne ⟨m, pg, nc, wc, da, true, q⟩ b (some s0)).filter isTabAlbumRow =
      if b && da then
        [.tabAlbumRow (clipGuard nc s0).1.album_gain
          ((clipGuard nc s0).1.album_peak * 32768)]
      else []) ∧
    ((processOne ⟨m, pg, nc, wc, da, false, q⟩ b (some s0)).filter isHumanTrackBlock =
      [.humanTrack (clipGuard nc s0).1.file (clipGuard nc s0).1.track_loudness
        (clipGuard nc s0).1.track_loudness_range (clipGuard nc s0).1.track_gain
        (clipGuard nc s0).1.track_peak]) ∧
    ((processOne ⟨m, pg, nc, wc, da, false, q⟩ b (some s0)).filter isHumanAlbumBlock =
      if b && da then
        [.humanAlbum (clipGuard nc s0).1.album_loudness
          (clipGuard nc s0).1.album_loudness_range (clipGuard nc s0).1.album_gain
          (clipGuard nc s0).1.album_peak]
      else []) := by
  have htag := tagEvents_filter_rows m (clipGuard nc s0).1
  refine ⟨?_, ?_, ?_, ?_⟩ <;>
    · simp only [processOne, List.filter_append, htag.1, htag.2.1, htag.2.2.1, htag.2.2.2,
        reportEvents]
      by_cases hbd : (b && da) = true <;>
        by_cases hw : (wc && (clipGuard nc s0).2) = true <;>
          simp [hbd, hw, isTabTrackRow, isTabAlbumRow, isHumanTrackBlock, isHumanAlbumBlock]

/-- C8 counterexample: with tab output and album mode both requested
but the lone (hence last) file's scan failed, the loop emits nothing —
in particular no album row, although album mode was requested. -/
theorem tab_album_row_missing_on_failed_last_scan :
    (⟨'s', 0, false, true, true, true, false⟩ : Config).tab_output = true ∧
    (⟨'s', 0, false, true, true, true, false⟩ : Config).do_album = true ∧
    sessionLoop ⟨'s', 0, false, true, true, true, false⟩ [(none : Option ScanResult)] = [] := by
  exact ⟨rfl, rfl, rfl⟩

/-- C8 (amended): tab-report shape under tab output and album mode —
the loop is the concatenation of per-file segments; every successfully
scanned non-last file contributes exactly one track row and no album
row; and when the last file's scan succeeded its segment carries
exactly one track row and exactly one album row, the latter directly
after the former. -/
theorem tab_report_shape (m : Char) (pg : ℚ) (nc wc q : Bool)
    (init : List (Option ScanResult)) (s t : ScanResult) :
    sessionLoop ⟨m, pg, nc, wc, true, true, q⟩ (init ++ [some s]) =
      (init.map (processOne ⟨m, pg, nc, wc, true, true, q⟩ false)).flatten ++
        processOne ⟨m, pg, nc, wc, true, true, q⟩ true (some s) ∧
    (processOne ⟨m, pg, nc, wc, true, true, q⟩ false (some t)).filter isTabTrackRow =
      [.tabRow (clipGuard nc t).1.file (clipGuard nc t).1.track_gain
        ((clipGuard nc t).1.track_peak * 32768)] ∧
    (processOne ⟨m, pg, nc, wc, true, true, q⟩ false (some t)).filter isTabAlbumRow = [] ∧
    (processOne ⟨m, pg, nc, wc, true, true, q⟩ true (some s)).filter isTabTrackRow =
      [.tabRow (clipGuard nc s).1.file (clipGuard nc s).1.track_gain
        ((clipGuard nc s).1.track_peak * 32768)] ∧
    (processOne ⟨m, pg, nc, wc, true, true, q⟩ true (some s)).filter isTabAlbumRow =
      [.tabAlbumRow (clipGuard nc s).1.album_gain
        ((clipGuard nc s).1.album_peak * 32768)] ∧
    ∃ l₁ l₂, processOne ⟨m, pg, nc, wc, true, true, q⟩ true (some s) =
      l₁ ++ .tabRow (clipGuard nc s).1.file (clipGuard nc s).1.track_gain
          ((clipGuard nc s).1.track_peak * 32768) ::
        .tabAlbumRow (clipGuard nc s).1.album_gain
          ((clipGuard nc s).1.album_peak * 32768) :: l₂ := by
  have htagT := tagEvents_filter_rows m (clipGuard nc t).1
  have htagS := tagEvents_filter_rows m (clipGuard nc s).1
  refine ⟨sessionLoop_append_last _ init (some s), ?_, ?_, ?_, ?_, ?_⟩
  · simp only [processOne, List.filter_append, htagT.1, reportEvents]
    by_cases hw : (wc && (clipGuard nc t).2) = true <;>
      simp [hw, isTabTrackRow, isTabAlbumRow]
  · simp only [processOne, List.filter_append, htagT.2.1, reportEvents]
    by_cases hw : (wc && (clipGuard nc t).2) = true <;>
      simp [hw, isTabTrackRow, isTabAlbumRow]
  · simp only [processOne, List.filter_append, htagS.1, reportEvents]
    by_cases hw : (wc && (clipGuard nc s).2) = true <;>
      simp [hw, isTabTrackRow, isTabAlbumRow]
  · simp only [processOne, List.filter_append, htagS.2.1, reportEvents]
    by_cases hw : (wc && (clipGuard nc s).2) = true <;>
      simp [hw, isTabTrackRow, isTabAlbumRow]
  · refine ⟨tagEvents m (clipGuard nc s).1,
      if wc && (clipGuard nc s).2 then [.warnClip] else [], ?_⟩
    simp [processOne, reportEvents]

end Loudgain
